import Mathlib

/-!
Verification development for the `jormungandr` network module
(`src/jormungandr/src/network/mod.rs`): a shallow embedding of the
connection-lifecycle driver (`connect_and_propagate`), the client-connection
counter of `GlobalState`, the propagation/gossip fan-out handlers, and the
bootstrap / block-fetch loops, together with theorems about them.

Machine integers (`usize`) are modelled as `Nat`; the one place where the
source manipulates `usize` with explicit overflow behavior
(`saturating_add` in `num_clients_to_bump`, wrapping `fetch_add`/`fetch_sub`
on the atomic counter) carries the 64-bit bound explicitly.

Types whose definitions live in modules of the repository that are not part
of the extracted sources (`client.rs`, `p2p/comm.rs`, the settings and
`bootstrap`/`grpc` modules) are modelled from the spec and from their usage
in `mod.rs`; each such definition says so in its doc comment.
-/

namespace Jormungandr

/-- Bit width of `usize` (64-bit target). -/
def USIZE_MOD : Nat := 2 ^ 64

/-- Largest `usize` value, the saturation point of `usize::saturating_add`. -/
def USIZE_MAX : Nat := 2 ^ 64 - 1

/-- Rust `usize::saturating_add`. -/
def saturating_add (a b : Nat) : Nat := min (a + b) USIZE_MAX

/-- GlobalState::inc_client_count (mod.rs:173-175): `fetch_add(1)` on the
atomic counter; `fetch_add` wraps at 2^64. -/
def inc_client_count (n : Nat) : Nat := (n + 1) % USIZE_MOD

/-- GlobalState::dec_client_count (mod.rs:177-180): `fetch_sub(1)` returning
the previous value, followed by `assert!(prev_count != 0)`. A decrement at
counter value 0 hits the assertion and panics: modelled as `none`. -/
def dec_client_count (n : Nat) : Option Nat :=
  if n = 0 then none else some (n - 1)

/-- GlobalState::num_clients_to_bump (mod.rs:184-194): load the counter,
`saturating_add(1)`, and return the excess over `max_client_connections`
(zero when not above the limit). -/
def num_clients_to_bump (clientCount maxClientConnections : Nat) : Nat :=
  let count := saturating_add clientCount 1
  if count > maxClientConnections then count - maxClientConnections else 0

/-- Counter events: one `inc` per fully established connection, one `dec`
per terminated connection. -/
inductive CEvent where
  | inc
  | dec
  deriving DecidableEq

/-- Number of increments in an event sequence. -/
def countInc : List CEvent → Nat
  | [] => 0
  | CEvent.inc :: r => countInc r + 1
  | CEvent.dec :: r => countInc r

/-- Number of decrements in an event sequence. -/
def countDec : List CEvent → Nat
  | [] => 0
  | CEvent.inc :: r => countDec r
  | CEvent.dec :: r => countDec r + 1

/-- Run the atomic client counter over a sequence of increment/decrement
events, starting from value `n`; `none` is the fatal assertion failure of
`dec_client_count`. -/
def runCounter : Nat → List CEvent → Option Nat
  | n, [] => some n
  | n, CEvent.inc :: r => runCounter (inc_client_count n) r
  | n, CEvent.dec :: r =>
    match dec_client_count n with
    | none => none
    | some m => runCounter m r

/-- Modelled from the spec: `p2p::comm::ConnectOptions` is declared in
`p2p/comm.rs`, which is not among the extracted sources. Per spec §3 it
carries at most one pending block announcement, at most one pending
fragment, at most one pending gossip payload, and a count of client
connections to evict; these are exactly the fields `mod.rs` uses
(`pending_block_announcement`, `pending_fragment`, `pending_gossip`,
`evict_clients`). Headers, fragments and gossip payloads are abstracted
as `Nat`. -/
structure ConnectOptions where
  pending_block_announcement : Option Nat
  pending_fragment : Option Nat
  pending_gossip : Option Nat
  evict_clients : Nat
  deriving DecidableEq

/-- Rust `ConnectOptions::default()`: all pending payloads absent, no
evictions. -/
def ConnectOptions.default : ConnectOptions :=
  { pending_block_announcement := none
    pending_fragment := none
    pending_gossip := none
    evict_clients := 0 }

/-- Modelled from the spec: `p2p::Node` (topology node profile, defined in
the p2p module, not among the extracted sources); `mod.rs` uses only
`node.id()` and `node.address()`, the latter optional (mod.rs:455-465). -/
structure Node where
  id : Nat
  address : Option Nat
  deriving DecidableEq

/-- Strike reasons reported to the topology (external `poldercast`
crate); `mod.rs` uses `CannotConnect` (mod.rs:508) and `InvalidPublicId`
(mod.rs:525). -/
inductive StrikeReason where
  | cannotConnect
  | invalidPublicId
  deriving DecidableEq

/-- Sub-classification of a `Connect`-level error used by the logging in
mod.rs:487-492: `connect_error()`, `http_error()`, or other (gRPC-level). -/
inductive ConnectErrorKind where
  | connectError
  | httpError
  | grpcError
  deriving DecidableEq

/-- Modelled from the spec: `client::ConnectError` is declared in
`client.rs`, which is not among the extracted sources. The match in
`connect_and_propagate` (mod.rs:485-504) names the variants `Connect`
(transport/HTTP/gRPC-level connection failure) and `Canceled` (attempt
superseded by a newer one, spec §4.2 step 5), with a catch-all for every
remaining variant, modelled by `other`. -/
inductive ConnectError where
  | Connect (kind : ConnectErrorKind)
  | Canceled
  | other
  deriving DecidableEq

/-- Benignity classification of a connection failure, exactly as computed
by the `match` in `connect_and_propagate` (mod.rs:485-504): `Connect _`
yields `false`, `Canceled` yields `true`, the catch-all yields `false`. -/
def connectFailureBenign : ConnectError → Bool
  | ConnectError.Connect _ => false
  | ConnectError.Canceled => true
  | ConnectError.other => false

/-- Observable outcome of a stage of `connect_and_propagate`: strikes
reported to the topology (against which node id and why), the registry
entry removed (if any), and the counter events performed. -/
structure PostConnectOutcome where
  strikes : List (Nat × StrikeReason)
  removedPeer : Option Nat
  counterEvents : List CEvent
  deriving DecidableEq

/-- Failure path of `connect_and_propagate` (mod.rs:484-515): when the
failure is not benign, report a `CannotConnect` strike against the selected
node id and remove its registry entry; when benign, only log. The counter
is untouched on both paths. -/
def handleConnectFailure (nodeId : Nat) (e : ConnectError) : PostConnectOutcome :=
  if connectFailureBenign e then
    { strikes := [], removedPeer := none, counterEvents := [] }
  else
    { strikes := [(nodeId, StrikeReason.cannotConnect)]
      removedPeer := some nodeId
      counterEvents := [] }

/-- Success path of `connect_and_propagate` (mod.rs:516-542): if the
remote's advertised node id differs from the topology-selected one, report
an `InvalidPublicId` strike against the selected id, remove its registry
entry, and leave the counter alone; otherwise increment the client
counter. -/
def handleConnected (connectedId expectedId : Nat) : PostConnectOutcome :=
  if connectedId ≠ expectedId then
    { strikes := [(expectedId, StrikeReason.invalidPublicId)]
      removedPeer := some expectedId
      counterEvents := [] }
  else
    { strikes := [], removedPeer := none, counterEvents := [CEvent.inc] }

/-- Counter events over the whole lifecycle of one successful transport
connection: the establishment-time events of `handleConnected`, and
(only when the identity matched and the connection was held) the single
decrement performed when the client future terminates (mod.rs:536-539). -/
def connectionLifecycleEvents (connectedId expectedId : Nat) : List CEvent :=
  (handleConnected connectedId expectedId).counterEvents ++
    (if connectedId = expectedId then [CEvent.dec] else [])

/-- Result of the pre-connect stage of `connect_and_propagate`
(mod.rs:449-479): skip nodes without an address, panic on a self-connect
(the `assert_ne!`), otherwise dial `addr` with the options carrying the
computed `evict_clients`. -/
inductive AttemptResult where
  | noAddress
  | selfConnectPanic
  | dial (addr : Nat) (options : ConnectOptions)
  deriving DecidableEq

/-- Pre-connect stage of `connect_and_propagate` (mod.rs:449-479): resolve
the node's address (abandon silently when absent), set
`options.evict_clients = num_clients_to_bump()` (mod.rs:466), assert the
target is not the local node (mod.rs:468-472), then dial. -/
def connect_and_propagate_attempt (node : Node) (selfId : Nat)
    (clientCount maxClientConnections : Nat) (options : ConnectOptions) :
    AttemptResult :=
  match node.address with
  | none => AttemptResult.noAddress
  | some addr =>
    let options :=
      { options with
          evict_clients := num_clients_to_bump clientCount maxClientConnections }
    if node.id = selfId then AttemptResult.selfConnectPanic
    else AttemptResult.dial addr options

/-- Item carried by a `NetworkMsg::Propagate` command (intercom module):
a block header or a fragment, each abstracted as `Nat`. -/
inductive PropagateMsg where
  | block (header : Nat)
  | fragment (fragment : Nat)
  deriving DecidableEq

/-- Options built for one unreached node in `handle_propagation_msg`
(mod.rs:360-369): start from `ConnectOptions::default()` and set the one
pending field matching the propagated item. -/
def optionsForPropagation (msg : PropagateMsg) : ConnectOptions :=
  match msg with
  | PropagateMsg.block header =>
    { ConnectOptions.default with pending_block_announcement := some header }
  | PropagateMsg.fragment fragment =>
    { ConnectOptions.default with pending_fragment := some fragment }

/-- Fallback stage of `handle_propagation_msg` (mod.rs:352-374): given the
nodes the registry reported unreachable, truncate the list to
`max_client_connections`, and open one connection per remaining node with
the propagated item as pending payload. Returns the list of
(node, options) pairs handed to `connect_and_propagate`. -/
def handle_propagation_unreached (msg : PropagateMsg) (unreachedNodes : List Node)
    (maxClientConnections : Nat) : List (Node × ConnectOptions) :=
  (unreachedNodes.take maxClientConnections).map
    (fun node => (node, optionsForPropagation msg))

/-- Targets of one periodic gossip round in `send_gossip` (mod.rs:420-421):
the topology view for selection Any, truncated to `max_client_connections`
peers. -/
def send_gossip_targets (viewPeers : List Node) (maxClientConnections : Nat) :
    List Node :=
  viewPeers.take maxClientConnections

/-- Connections opened by one periodic gossip round in `send_gossip`
(mod.rs:414-447): for each retained target, `initiate_gossips` builds a
gossip payload (`gossipFor`) and delivery through the registry is attempted
(`deliverOk`); on failure the registry hands the payload back and a new
connection is opened carrying it as `pending_gossip`. Returns the
(node, options) pairs handed to `connect_and_propagate`. -/
def send_gossip (viewPeers : List Node) (maxClientConnections : Nat)
    (gossipFor : Node → Nat) (deliverOk : Node → Bool) :
    List (Node × ConnectOptions) :=
  (send_gossip_targets viewPeers maxClientConnections).filterMap
    (fun node =>
      if deliverOk node then none
      else
        some (node,
          { ConnectOptions.default with pending_gossip := some (gossipFor node) }))

/-- Modelled from the spec: a configured trusted peer (settings module, not
among the extracted sources). `mod.rs` uses its `id`, and its `address`
only through `address.to_socketaddr()` (mod.rs:550), an optional resolution
modelled by the `resolved` field; socket addresses are abstracted as
`Nat`. -/
structure TrustedPeer where
  id : Nat
  resolved : Option Nat
  deriving DecidableEq

/-- trusted_peers_shuffled (mod.rs:546-555): keep the trusted peers whose
address resolves to a socket address, then shuffle with a thread-local RNG.
The randomness is modelled by the `shuffle` parameter; theorems assume only
that it permutes its input. -/
def trusted_peers_shuffled (trustedPeers : List TrustedPeer)
    (shuffle : List Nat → List Nat) : List Nat :=
  shuffle (trustedPeers.filterMap TrustedPeer.resolved)

/-- Active network protocol (settings module); `mod.rs` distinguishes
only gRPC from the unimplemented NTT. -/
inductive Protocol where
  | grpc
  | ntt
  deriving DecidableEq

/-- Modelled from the spec: `bootstrap::Error` is declared in
`bootstrap.rs`, which is not among the extracted sources. The match in
`bootstrap` (mod.rs:584-596) distinguishes the `Connect` variant
(peer unreachable) from every other error, both of which continue the
loop. -/
inductive BootstrapPeerError where
  | connect
  | other
  deriving DecidableEq

/-- The trusted-peer loop of `bootstrap` (mod.rs:574-597): try each address
in order; any error logs and continues; the first success sets
`bootstrapped = true` and breaks. Returns the final `bootstrapped` flag
(starting from `b`) together with the number of per-peer attempts made. -/
def bootstrapLoop (attempt : Nat → Except BootstrapPeerError Unit) (b : Bool) :
    List Nat → Bool × Nat
  | [] => (b, 0)
  | addr :: rest =>
    match attempt addr with
    | Except.ok _ => (true, 1)
    | Except.error _ =>
      let r := bootstrapLoop attempt b rest
      (r.1, r.2 + 1)

/-- bootstrap (mod.rs:557-600): panic (`unimplemented!`, modelled as
`none`) unless the protocol is gRPC; start with `bootstrapped = true` iff
the trusted-peer list is empty (mod.rs:569-572); run the loop over the
shuffled resolvable addresses; always return `Ok(bootstrapped)`. The
per-peer bootstrap exchange (`bootstrap::bootstrap_from_peer`, a
collaborator outside the extracted sources) is the `attempt` parameter.
The result carries the attempt count alongside the returned flag. -/
def bootstrap (protocol : Protocol) (trustedPeers : List TrustedPeer)
    (shuffle : List Nat → List Nat)
    (attempt : Nat → Except BootstrapPeerError Unit) : Option (Bool × Nat) :=
  match protocol with
  | Protocol.ntt => none
  | Protocol.grpc =>
    some (bootstrapLoop attempt trustedPeers.isEmpty
      (trusted_peers_shuffled trustedPeers shuffle))

/-- Modelled from the spec: `grpc::FetchBlockError` is declared in the grpc
module, which is not among the extracted sources. The match in
`fetch_block` (mod.rs:626-638) distinguishes its `Connect` variant from
every other error, both of which continue the loop. -/
inductive GrpcFetchBlockError where
  | connect
  | other
  deriving DecidableEq

/-- Errors of `network::fetch_block` (mod.rs:650-656). -/
inductive FetchBlockError where
  | noTrustedPeers
  | couldNotDownloadBlock (block : Nat)
  deriving DecidableEq

/-- The trusted-peer loop of `fetch_block` (mod.rs:623-639): try each
address in order; any error logs and continues; the first success stores
the block and breaks. Returns the fetched block (if any) together with the
number of per-peer attempts made. -/
def fetchBlockLoop (attempt : Nat → Except GrpcFetchBlockError Nat) :
    List Nat → Option Nat × Nat
  | [] => (none, 0)
  | addr :: rest =>
    match attempt addr with
    | Except.ok b => (some b, 1)
    | Except.error _ =>
      let r := fetchBlockLoop attempt rest
      (r.1, r.2 + 1)

/-- fetch_block (mod.rs:606-648): panic (`unimplemented!`, modelled as
`none`) unless the protocol is gRPC; return `NoTrustedPeers` when the
trusted-peer list is empty; otherwise loop over the shuffled resolvable
addresses and return the first block fetched, or
`CouldNotDownloadBlock {block: hash}` when none was. The per-peer fetch
(`grpc::fetch_block`, a collaborator outside the extracted sources) is the
`attempt` parameter; block contents and hashes are abstracted as `Nat`.
The result carries the attempt count alongside the returned value. -/
def fetch_block (protocol : Protocol) (trustedPeers : List TrustedPeer)
    (shuffle : List Nat → List Nat) (hash : Nat)
    (attempt : Nat → Except GrpcFetchBlockError Nat) :
    Option (Except FetchBlockError Nat × Nat) :=
  match protocol with
  | Protocol.ntt => none
  | Protocol.grpc =>
    if trustedPeers.isEmpty then some (Except.error FetchBlockError.noTrustedPeers, 0)
    else
      match fetchBlockLoop attempt (trusted_peers_shuffled trustedPeers shuffle) with
      | (some b, n) => some (Except.ok b, n)
      | (none, n) => some (Except.error (FetchBlockError.couldNotDownloadBlock hash), n)

/-! Helper lemmas. -/

/-- A successfully completed run of the counter relates its final value to
the numbers of increments and decrements, provided the increments stay
below the wrap-around point of `fetch_add` (2^64, unreachable in any real
execution). -/
theorem runCounter_value_eq (l : List CEvent) : ∀ n m : Nat,
    n + countInc l < USIZE_MOD → runCounter n l = some m →
    m + countDec l = n + countInc l := by
  induction l with
  | nil =>
    intro n m _ h
    simp only [runCounter, Option.some.injEq] at h
    simp [countInc, countDec, h]
  | cons e r ih =>
    cases e with
    | inc =>
      intro n m hlt h
      simp only [countInc] at hlt ⊢
      simp only [runCounter] at h
      have hn1 : inc_client_count n = n + 1 := by
        unfold inc_client_count USIZE_MOD
        have : n + 1 < 2 ^ 64 := by unfold USIZE_MOD at hlt; omega
        exact Nat.mod_eq_of_lt this
      rw [hn1] at h
      have := ih (n + 1) m (by omega) h
      simp only [countDec]
      omega
    | dec =>
      intro n m hlt h
      simp only [countInc] at hlt ⊢
      simp only [runCounter, dec_client_count] at h
      by_cases hz : n = 0
      · simp [hz] at h
      · simp only [hz, if_neg, ite_false] at h
        have := ih (n - 1) m (by omega) h
        simp only [countDec]
        omega

/-- Running the counter over an appended trace is the bind of the runs. -/
theorem runCounter_append (p q : List CEvent) : ∀ n : Nat,
    runCounter n (p ++ q) = (runCounter n p).bind (fun m => runCounter m q) := by
  induction p with
  | nil => intro n; rfl
  | cons e r ih =>
    cases e with
    | inc =>
      intro n
      simp only [List.cons_append, runCounter]
      exact ih (inc_client_count n)
    | dec =>
      intro n
      simp only [List.cons_append, runCounter]
      cases dec_client_count n with
      | none => rfl
      | some m => exact ih m

/-- The bootstrap loop over addresses that all fail keeps the initial flag
and attempts every address. -/
theorem bootstrapLoop_all_fail (attempt : Nat → Except BootstrapPeerError Unit)
    (b : Bool) : ∀ addrs : List Nat,
    (∀ a ∈ addrs, ∃ err, attempt a = Except.error err) →
    bootstrapLoop attempt b addrs = (b, addrs.length) := by
  intro addrs
  induction addrs with
  | nil => intro _; rfl
  | cons a rest ih =>
    intro h
    obtain ⟨err, herr⟩ := h a (List.mem_cons_self a rest)
    have hrest := ih (fun x hx => h x (List.mem_cons_of_mem a hx))
    simp [bootstrapLoop, herr, hrest]

/-- The bootstrap loop stops at the first succeeding address, after one
attempt per preceding failure plus one for the success. -/
theorem bootstrapLoop_first_success (attempt : Nat → Except BootstrapPeerError Unit)
    (b : Bool) : ∀ (pre : List Nat) (a : Nat) (rest : List Nat),
    (∀ x ∈ pre, ∃ err, attempt x = Except.error err) →
    attempt a = Except.ok () →
    bootstrapLoop attempt b (pre ++ a :: rest) = (true, pre.length + 1) := by
  intro pre
  induction pre with
  | nil =>
    intro a rest _ hok
    simp [bootstrapLoop, hok]
  | cons x pre ih =>
    intro a rest hfail hok
    obtain ⟨err, herr⟩ := hfail x (List.mem_cons_self x pre)
    have htail := ih a rest (fun y hy => hfail y (List.mem_cons_of_mem x hy)) hok
    simp [bootstrapLoop, herr, htail]

/-- The fetch loop over addresses that all fail yields no block and
attempts every address. -/
theorem fetchBlockLoop_all_fail (attempt : Nat → Except GrpcFetchBlockError Nat) :
    ∀ addrs : List Nat,
    (∀ a ∈ addrs, ∃ err, attempt a = Except.error err) →
    fetchBlockLoop attempt addrs = (none, addrs.length) := by
  intro addrs
  induction addrs with
  | nil => intro _; rfl
  | cons a rest ih =>
    intro h
    obtain ⟨err, herr⟩ := h a (List.mem_cons_self a rest)
    have hrest := ih (fun x hx => h x (List.mem_cons_of_mem a hx))
    simp [fetchBlockLoop, herr, hrest]

/-- The fetch loop stops at the first address that returns a block. -/
theorem fetchBlockLoop_first_success (attempt : Nat → Except GrpcFetchBlockError Nat) :
    ∀ (pre : List Nat) (a : Nat) (rest : List Nat) (b : Nat),
    (∀ x ∈ pre, ∃ err, attempt x = Except.error err) →
    attempt a = Except.ok b →
    fetchBlockLoop attempt (pre ++ a :: rest) = (some b, pre.length + 1) := by
  intro pre
  induction pre with
  | nil =>
    intro a rest b _ hok
    simp [fetchBlockLoop, hok]
  | cons x pre ih =>
    intro a rest b hfail hok
    obtain ⟨err, herr⟩ := hfail x (List.mem_cons_self x pre)
    have htail := ih a rest b (fun y hy => hfail y (List.mem_cons_of_mem x hy)) hok
    simp [fetchBlockLoop, herr, htail]

/-! Claim theorems. -/

/-- Claim C1, counterexample: the claim says a connect-level transport
error is benign (only logged, no strike, registry entry kept), but
`connect_and_propagate` classifies `ConnectError::Connect` as non-benign
(mod.rs:494): at that input the code reports a cannot-connect strike and
removes the registry entry. -/
theorem claim_C1_counterexample :
    connectFailureBenign (ConnectError.Connect ConnectErrorKind.connectError) = false ∧
    handleConnectFailure 7 (ConnectError.Connect ConnectErrorKind.connectError) =
      { strikes := [(7, StrikeReason.cannotConnect)], removedPeer := some 7,
        counterEvents := [] } := by
  decide

/-- Claim C1, amended: for every connection attempt that fails before a
verified connection is established, only an explicit cancellation is
benign (logged only, no strike, registry entry kept); every other failure,
including connect-level transport and HTTP/transport-negotiation errors,
reports a cannot-connect strike to the topology and removes the registry
entry for the node. -/
theorem claim_C1_failure_classification :
    ∀ (nodeId : Nat) (e : ConnectError),
      (connectFailureBenign e = true ↔ e = ConnectError.Canceled) ∧
      (e = ConnectError.Canceled →
        handleConnectFailure nodeId e =
          { strikes := [], removedPeer := none, counterEvents := [] }) ∧
      (e ≠ ConnectError.Canceled →
        handleConnectFailure nodeId e =
          { strikes := [(nodeId, StrikeReason.cannotConnect)],
            removedPeer := some nodeId, counterEvents := [] }) := by
  intro nodeId e
  cases e <;> simp [connectFailureBenign, handleConnectFailure]

/-- Witness for the amended Claim C1 at concrete inputs. -/
theorem claim_C1_failure_classification_witness :
    handleConnectFailure 0 ConnectError.Canceled =
      { strikes := [], removedPeer := none, counterEvents := [] } ∧
    handleConnectFailure 1 (ConnectError.Connect ConnectErrorKind.httpError) =
      { strikes := [(1, StrikeReason.cannotConnect)], removedPeer := some 1,
        counterEvents := [] } :=
  ⟨(claim_C1_failure_classification 0 ConnectError.Canceled).2.1 rfl,
   (claim_C1_failure_classification 1
      (ConnectError.Connect ConnectErrorKind.httpError)).2.2 (by decide)⟩

/-- Claim C2: after any sequence of connect/disconnect counter events, the
client counter equals the number of increments minus the number of
decrements and never goes negative; a decrement performed while the
counter is zero hits the fatal assertion (`none`); and over one connection
lifecycle the counter is incremented exactly once, and only when the
remote identity matched, and decremented exactly once, at termination of
that same connection. -/
theorem claim_C2_client_count_invariant :
    (∀ (events : List CEvent) (n : Nat), countInc events < USIZE_MOD →
      runCounter 0 events = some n →
      n = countInc events - countDec events ∧ countDec events ≤ countInc events) ∧
    (∀ p rest : List CEvent, runCounter 0 p = some 0 →
      runCounter 0 (p ++ CEvent.dec :: rest) = none) ∧
    (∀ connectedId expectedId : Nat,
      countInc (connectionLifecycleEvents connectedId expectedId) =
        (if connectedId = expectedId then 1 else 0) ∧
      countDec (connectionLifecycleEvents connectedId expectedId) =
        (if connectedId = expectedId then 1 else 0)) := by
  refine ⟨?_, ?_, ?_⟩
  · intro events n hlt hrun
    have h := runCounter_value_eq events 0 n (by omega) hrun
    omega
  · intro p rest hp
    rw [runCounter_append, hp]
    rfl
  · intro connectedId expectedId
    by_cases h : connectedId = expectedId <;>
      simp [connectionLifecycleEvents, handleConnected, countInc, countDec, h]

/-- Witness for Claim C2 at a concrete trace and lifecycle. -/
theorem claim_C2_client_count_invariant_witness :
    ((1 : Nat) = countInc [CEvent.inc, CEvent.inc, CEvent.dec] -
        countDec [CEvent.inc, CEvent.inc, CEvent.dec] ∧
      countDec [CEvent.inc, CEvent.inc, CEvent.dec] ≤
        countInc [CEvent.inc, CEvent.inc, CEvent.dec]) ∧
    runCounter 0 ([CEvent.inc, CEvent.dec] ++ CEvent.dec :: []) = none ∧
    countInc (connectionLifecycleEvents 4 4) = 1 :=
  ⟨claim_C2_client_count_invariant.1 [CEvent.inc, CEvent.inc, CEvent.dec] 1
      (by decide) (by decide),
   claim_C2_client_count_invariant.2.1 [CEvent.inc, CEvent.dec] [] (by decide),
   ((claim_C2_client_count_invariant.2.2 4 4).1).trans (by decide)⟩

/-- Claim C5: on a transport-level success whose advertised remote node id
differs from the topology-selected id, an invalid-public-identity strike
is reported against the selected id, its registry entry is removed, and
the counter is untouched; only on an identity match is the counter
incremented. -/
theorem claim_C5_identity_verification :
    ∀ connectedId expectedId : Nat,
      (connectedId ≠ expectedId →
        handleConnected connectedId expectedId =
          { strikes := [(expectedId, StrikeReason.invalidPublicId)],
            removedPeer := some expectedId, counterEvents := [] }) ∧
      (connectedId = expectedId →
        handleConnected connectedId expectedId =
          { strikes := [], removedPeer := none,
            counterEvents := [CEvent.inc] }) ∧
      countInc (handleConnected connectedId expectedId).counterEvents =
        (if connectedId = expectedId then 1 else 0) := by
  intro connectedId expectedId
  by_cases h : connectedId = expectedId <;>
    simp [handleConnected, countInc, h]

/-- Witness for Claim C5 at concrete identities. -/
theorem claim_C5_identity_verification_witness :
    handleConnected 2 3 =
      { strikes := [(3, StrikeReason.invalidPublicId)], removedPeer := some 3,
        counterEvents := [] } ∧
    handleConnected 4 4 =
      { strikes := [], removedPeer := none, counterEvents := [CEvent.inc] } :=
  ⟨(claim_C5_identity_verification 2 3).1 (by decide),
   (claim_C5_identity_verification 4 4).2.1 rfl⟩

/-- Claim C3: for every connection attempt with a resolvable address (and
a non-self target, below `usize` saturation of the counter), the options
attached to the dial carry `evict_clients` equal to
max(0, client_count + 1 − max_client_connections). -/
theorem claim_C3_evict_clients :
    ∀ (node : Node) (addr selfId clientCount maxClientConnections : Nat)
      (options : ConnectOptions),
      node.address = some addr → node.id ≠ selfId →
      clientCount < USIZE_MAX →
      connect_and_propagate_attempt node selfId clientCount maxClientConnections
          options =
        AttemptResult.dial addr
          { options with
              evict_clients := num_clients_to_bump clientCount maxClientConnections } ∧
      (num_clients_to_bump clientCount maxClientConnections : Int) =
        max 0 ((clientCount : Int) + 1 - (maxClientConnections : Int)) := by
  intro node addr selfId clientCount maxClientConnections options haddr hself hlt
  constructor
  · unfold connect_and_propagate_attempt
    rw [haddr]
    simp [hself]
  · have hsat : saturating_add clientCount 1 = clientCount + 1 := by
      unfold saturating_add USIZE_MAX
      unfold USIZE_MAX at hlt
      omega
    unfold num_clients_to_bump
    rw [hsat]
    by_cases hgt : clientCount + 1 > maxClientConnections
    · rw [if_pos hgt]
      rw [max_eq_right (by omega : (0 : Int) ≤ (clientCount : Int) + 1 - (maxClientConnections : Int))]
      omega
    · rw [if_neg hgt]
      rw [max_eq_left (by omega : (clientCount : Int) + 1 - (maxClientConnections : Int) ≤ 0)]
      rfl

/-- Witness for Claim C3 at a concrete node and counter value. -/
theorem claim_C3_evict_clients_witness :
    connect_and_propagate_attempt { id := 1, address := some 7 } 0 5 3
        ConnectOptions.default =
      AttemptResult.dial 7
        { ConnectOptions.default with evict_clients := num_clients_to_bump 5 3 } ∧
    (num_clients_to_bump 5 3 : Int) = max 0 ((5 : Int) + 1 - (3 : Int)) :=
  claim_C3_evict_clients { id := 1, address := some 7 } 7 0 5 3
    ConnectOptions.default rfl (by decide) (by decide)

/-- Claim C4: the propagation fallback truncates the unreachable set to at
most `max_client_connections` entries; every retained peer gets a
connection whose options carry exactly the propagated item as pending
payload (the block announcement for a block, the fragment for a
fragment); and, when the unreachable set has no duplicates, a peer cut
off by the truncation gets no connection attempt. -/
theorem claim_C4_propagation_fallback :
    ∀ (msg : PropagateMsg) (unreachedNodes : List Node)
      (maxClientConnections : Nat),
      (handle_propagation_unreached msg unreachedNodes maxClientConnections).length ≤
        maxClientConnections ∧
      (∀ node, node ∈ unreachedNodes.take maxClientConnections →
        (node, optionsForPropagation msg) ∈
          handle_propagation_unreached msg unreachedNodes maxClientConnections) ∧
      (∀ header, msg = PropagateMsg.block header →
        optionsForPropagation msg =
          { ConnectOptions.default with pending_block_announcement := some header }) ∧
      (∀ fragment, msg = PropagateMsg.fragment fragment →
        optionsForPropagation msg =
          { ConnectOptions.default with pending_fragment := some fragment }) ∧
      (unreachedNodes.Nodup →
        ∀ node, node ∈ unreachedNodes.drop maxClientConnections →
          ∀ options, (node, options) ∉
            handle_propagation_unreached msg unreachedNodes maxClientConnections) := by
  intro msg unreachedNodes maxClientConnections
  refine ⟨?_, ?_, ?_, ?_, ?_⟩
  · simp only [handle_propagation_unreached, List.length_map, List.length_take]
    omega
  · intro node hmem
    exact List.mem_map_of_mem _ hmem
  · intro header hmsg
    subst hmsg
    rfl
  · intro fragment hmsg
    subst hmsg
    rfl
  · intro hnodup node hdrop options hmem
    simp only [handle_propagation_unreached, List.mem_map] at hmem
    obtain ⟨a, ha, heq⟩ := hmem
    have hnode : node ∈ unreachedNodes.take maxClientConnections := by
      cases heq
      exact ha
    exact List.disjoint_take_drop hnodup le_rfl hnode hdrop

/-- Witness for Claim C4 at a concrete message and unreachable set. -/
theorem claim_C4_propagation_fallback_witness :
    (handle_propagation_unreached (PropagateMsg.block 5)
        [{ id := 1, address := some 1 }, { id := 2, address := none },
          { id := 3, address := some 3 }] 2).length ≤ 2 ∧
    (({ id := 1, address := some 1 } : Node),
        optionsForPropagation (PropagateMsg.block 5)) ∈
      handle_propagation_unreached (PropagateMsg.block 5)
        [{ id := 1, address := some 1 }, { id := 2, address := none },
          { id := 3, address := some 3 }] 2 ∧
    ∀ options, (({ id := 3, address := some 3 } : Node), options) ∉
      handle_propagation_unreached (PropagateMsg.block 5)
        [{ id := 1, address := some 1 }, { id := 2, address := none },
          { id := 3, address := some 3 }] 2 :=
  have h := claim_C4_propagation_fallback (PropagateMsg.block 5)
    [{ id := 1, address := some 1 }, { id := 2, address := none },
      { id := 3, address := some 3 }] 2
  ⟨h.1, h.2.1 _ (by decide),
   fun options => h.2.2.2.2 (by decide) _ (by decide) options⟩

/-- Claim C6: the periodic gossip round truncates the topology view to at
most `max_client_connections` targets before any delivery; every retained
target whose delivery fails gets a new connection carrying exactly its
gossip payload as `pending_gossip`; and every connection the round opens
is for a retained target whose delivery failed, carrying its payload. -/
theorem claim_C6_gossip_fanout :
    ∀ (viewPeers : List Node) (maxClientConnections : Nat)
      (gossipFor : Node → Nat) (deliverOk : Node → Bool),
      (send_gossip_targets viewPeers maxClientConnections).length =
        min maxClientConnections viewPeers.length ∧
      (send_gossip_targets viewPeers maxClientConnections).length ≤
        maxClientConnections ∧
      (∀ node, node ∈ send_gossip_targets viewPeers maxClientConnections →
        deliverOk node = false →
        (node, { ConnectOptions.default with pending_gossip := some (gossipFor node) }) ∈
          send_gossip viewPeers maxClientConnections gossipFor deliverOk) ∧
      (∀ node options,
        (node, options) ∈ send_gossip viewPeers maxClientConnections gossipFor deliverOk →
        node ∈ send_gossip_targets viewPeers maxClientConnections ∧
        deliverOk node = false ∧
        options.pending_gossip = some (gossipFor node)) := by
  intro viewPeers maxClientConnections gossipFor deliverOk
  refine ⟨?_, ?_, ?_, ?_⟩
  · simp [send_gossip_targets, List.length_take]
  · simp only [send_gossip_targets, List.length_take]
    omega
  · intro node hmem hfail
    refine List.mem_filterMap.mpr ⟨node, hmem, ?_⟩
    simp [hfail]
  · intro node options hmem
    obtain ⟨a, ha, heq⟩ := List.mem_filterMap.mp hmem
    by_cases hd : deliverOk a = true
    · simp [hd] at heq
    · rw [Bool.not_eq_true] at hd
      simp only [hd, Bool.false_eq_true, if_false, Option.some.injEq,
        Prod.mk.injEq] at heq
      obtain ⟨rfl, rfl⟩ := heq
      exact ⟨ha, hd, rfl⟩

/-- Witness for Claim C6 at a concrete view of three peers truncated to
two targets, with delivery failing for the second. -/
theorem claim_C6_gossip_fanout_witness :
    (send_gossip_targets
        [{ id := 1, address := some 1 }, { id := 2, address := some 2 },
          { id := 3, address := none }] 2).length ≤ 2 ∧
    (({ id := 2, address := some 2 } : Node),
        { ConnectOptions.default with pending_gossip := some 20 }) ∈
      send_gossip
        [{ id := 1, address := some 1 }, { id := 2, address := some 2 },
          { id := 3, address := none }] 2
        (fun node => node.id * 10) (fun node => node.id == 1) :=
  have h := claim_C6_gossip_fanout
    [{ id := 1, address := some 1 }, { id := 2, address := some 2 },
      { id := 3, address := none }] 2
    (fun node => node.id * 10) (fun node => node.id == 1)
  ⟨h.2.1, h.2.2.1 { id := 2, address := some 2 } (by decide) (by decide)⟩

/-- Claim C7: with a permuting shuffle, bootstrap over an empty
trusted-peer list returns Ok(true) with zero attempts; over a shuffled
address list whose first success is preceded only by failures it returns
Ok(true) after exactly those attempts (one attempt when the first address
succeeds); the loop continues past any failing address; and when every
address fails over a non-empty list it returns Ok(false) after attempting
them all. -/
theorem claim_C7_bootstrap :
    ∀ (trustedPeers : List TrustedPeer) (shuffle : List Nat → List Nat)
      (attempt : Nat → Except BootstrapPeerError Unit),
      (∀ l, (shuffle l).Perm l) →
      (trustedPeers = [] →
        bootstrap Protocol.grpc trustedPeers shuffle attempt = some (true, 0)) ∧
      (∀ (pre : List Nat) (a : Nat) (rest : List Nat),
        trusted_peers_shuffled trustedPeers shuffle = pre ++ a :: rest →
        (∀ x ∈ pre, ∃ err, attempt x = Except.error err) →
        attempt a = Except.ok () →
        bootstrap Protocol.grpc trustedPeers shuffle attempt =
          some (true, pre.length + 1)) ∧
      (∀ (a : Nat) (rest : List Nat) (b : Bool) (err : BootstrapPeerError),
        attempt a = Except.error err →
        bootstrapLoop attempt b (a :: rest) =
          ((bootstrapLoop attempt b rest).1, (bootstrapLoop attempt b rest).2 + 1)) ∧
      (trustedPeers ≠ [] →
        (∀ a ∈ trusted_peers_shuffled trustedPeers shuffle,
          ∃ err, attempt a = Except.error err) →
        bootstrap Protocol.grpc trustedPeers shuffle attempt =
          some (false, (trusted_peers_shuffled trustedPeers shuffle).length)) := by
  intro trustedPeers shuffle attempt hshuf
  refine ⟨?_, ?_, ?_, ?_⟩
  · intro hempty
    subst hempty
    have hnil : trusted_peers_shuffled [] shuffle = [] :=
      (hshuf ([].filterMap TrustedPeer.resolved)).eq_nil
    simp [bootstrap, hnil, bootstrapLoop]
  · intro pre a rest hsplit hfail hok
    unfold bootstrap
    rw [hsplit, bootstrapLoop_first_success attempt _ pre a rest hfail hok]
  · intro a rest b err herr
    simp [bootstrapLoop, herr]
  · intro hne hfail
    unfold bootstrap
    rw [bootstrapLoop_all_fail attempt _ _ hfail]
    have : trustedPeers.isEmpty = false := by
      cases trustedPeers with
      | nil => exact absurd rfl hne
      | cons x xs => rfl
    rw [this]

/-- Witness for Claim C7: an empty list bootstraps trivially, and a
two-peer list whose first address succeeds bootstraps after exactly one
attempt. -/
theorem claim_C7_bootstrap_witness :
    bootstrap Protocol.grpc [] id
        (fun _ => Except.error BootstrapPeerError.connect) = some (true, 0) ∧
    bootstrap Protocol.grpc
        [{ id := 1, resolved := some 4 }, { id := 2, resolved := some 5 }] id
        (fun a => if a = 4 then Except.ok () else
          Except.error BootstrapPeerError.connect) = some (true, 1) :=
  ⟨(claim_C7_bootstrap [] id (fun _ => Except.error BootstrapPeerError.connect)
      (fun l => List.Perm.refl l)).1 rfl,
   (claim_C7_bootstrap
      [{ id := 1, resolved := some 4 }, { id := 2, resolved := some 5 }] id
      (fun a => if a = 4 then Except.ok () else
        Except.error BootstrapPeerError.connect)
      (fun l => List.Perm.refl l)).2.1 [] 4 [5] rfl
      (fun x hx => absurd hx (List.not_mem_nil x)) rfl⟩

/-- Claim C8: with a permuting shuffle, fetch_block over an empty
trusted-peer list returns the no-trusted-peers error with zero attempts;
over a shuffled address list whose first success is preceded only by
failures it returns that block; the loop continues past any failing
address; and when every address fails over a non-empty list it returns
the could-not-download error carrying exactly the requested hash, after
attempting them all. -/
theorem claim_C8_fetch_block :
    ∀ (trustedPeers : List TrustedPeer) (shuffle : List Nat → List Nat)
      (hash : Nat) (attempt : Nat → Except GrpcFetchBlockError Nat),
      (∀ l, (shuffle l).Perm l) →
      (trustedPeers = [] →
        fetch_block Protocol.grpc trustedPeers shuffle hash attempt =
          some (Except.error FetchBlockError.noTrustedPeers, 0)) ∧
      (∀ (pre : List Nat) (a : Nat) (rest : List Nat) (b : Nat),
        trustedPeers ≠ [] →
        trusted_peers_shuffled trustedPeers shuffle = pre ++ a :: rest →
        (∀ x ∈ pre, ∃ err, attempt x = Except.error err) →
        attempt a = Except.ok b →
        fetch_block Protocol.grpc trustedPeers shuffle hash attempt =
          some (Except.ok b, pre.length + 1)) ∧
      (∀ (a : Nat) (rest : List Nat) (err : GrpcFetchBlockError),
        attempt a = Except.error err →
        fetchBlockLoop attempt (a :: rest) =
          ((fetchBlockLoop attempt rest).1, (fetchBlockLoop attempt rest).2 + 1)) ∧
      (trustedPeers ≠ [] →
        (∀ a ∈ trusted_peers_shuffled trustedPeers shuffle,
          ∃ err, attempt a = Except.error err) →
        fetch_block Protocol.grpc trustedPeers shuffle hash attempt =
          some (Except.error (FetchBlockError.couldNotDownloadBlock hash),
            (trusted_peers_shuffled trustedPeers shuffle).length)) := by
  intro trustedPeers shuffle hash attempt hshuf
  have hne_isEmpty : trustedPeers ≠ [] → trustedPeers.isEmpty = false := by
    intro hne
    cases trustedPeers with
    | nil => exact absurd rfl hne
    | cons x xs => rfl
  refine ⟨?_, ?_, ?_, ?_⟩
  · intro hempty
    subst hempty
    rfl
  · intro pre a rest b hne hsplit hfail hok
    unfold fetch_block
    rw [hne_isEmpty hne]
    rw [hsplit, fetchBlockLoop_first_success attempt pre a rest b hfail hok]
    rfl
  · intro a rest err herr
    simp [fetchBlockLoop, herr]
  · intro hne hfail
    unfold fetch_block
    rw [hne_isEmpty hne]
    rw [fetchBlockLoop_all_fail attempt _ hfail]
    rfl

/-- Witness for Claim C8: an empty list yields the no-trusted-peers error,
and a one-peer list that always fails yields the could-not-download error
carrying the requested hash after one attempt. -/
theorem claim_C8_fetch_block_witness :
    fetch_block Protocol.grpc [] id 9
        (fun _ => Except.error GrpcFetchBlockError.other) =
      some (Except.error FetchBlockError.noTrustedPeers, 0) ∧
    fetch_block Protocol.grpc [{ id := 1, resolved := some 4 }] id 9
        (fun _ => Except.error GrpcFetchBlockError.other) =
      some (Except.error (FetchBlockError.couldNotDownloadBlock 9), 1) :=
  ⟨(claim_C8_fetch_block [] id 9
      (fun _ => Except.error GrpcFetchBlockError.other)
      (fun l => List.Perm.refl l)).1 rfl,
   (claim_C8_fetch_block [{ id := 1, resolved := some 4 }] id 9
      (fun _ => Except.error GrpcFetchBlockError.other)
      (fun l => List.Perm.refl l)).2.2.2 (by decide)
      (fun a _ => ⟨GrpcFetchBlockError.other, rfl⟩)⟩

/-- Claim C9: both bootstrap and fetch_block panic (`unimplemented!`,
modelled as `none`) when the configured protocol is not gRPC, and return
normally (a `some` result) under the precondition that it is gRPC. -/
theorem claim_C9_non_grpc_panics :
    ∀ (protocol : Protocol) (trustedPeers : List TrustedPeer)
      (shuffle : List Nat → List Nat) (hash : Nat)
      (battempt : Nat → Except BootstrapPeerError Unit)
      (fattempt : Nat → Except GrpcFetchBlockError Nat),
      (protocol ≠ Protocol.grpc →
        bootstrap protocol trustedPeers shuffle battempt = none ∧
        fetch_block protocol trustedPeers shuffle hash fattempt = none) ∧
      ((bootstrap Protocol.grpc trustedPeers shuffle battempt).isSome = true ∧
        (fetch_block Protocol.grpc trustedPeers shuffle hash fattempt).isSome = true) := by
  intro protocol trustedPeers shuffle hash battempt fattempt
  constructor
  · intro hne
    cases protocol with
    | grpc => exact absurd rfl hne
    | ntt => exact ⟨rfl, rfl⟩
  · constructor
    · rfl
    · unfold fetch_block
      by_cases he : trustedPeers.isEmpty
      · rw [if_pos he]
        rfl
      · rw [if_neg he]
        rcases hloop : fetchBlockLoop fattempt
            (trusted_peers_shuffled trustedPeers shuffle) with ⟨found, n⟩
        cases found <;> rfl

/-- Witness for Claim C9 at the NTT protocol. -/
theorem claim_C9_non_grpc_panics_witness :
    bootstrap Protocol.ntt [] id
        (fun _ => Except.error BootstrapPeerError.connect) = none ∧
    fetch_block Protocol.ntt [] id 0
        (fun _ => Except.error GrpcFetchBlockError.other) = none :=
  (claim_C9_non_grpc_panics Protocol.ntt [] id 0
    (fun _ => Except.error BootstrapPeerError.connect)
    (fun _ => Except.error GrpcFetchBlockError.other)).1 (by decide)

/-- Claim C10: trusted_peers_shuffled drops every trusted peer whose
address does not resolve, so over a non-empty trusted-peer list in which
no address resolves, bootstrap returns Ok(false) and fetch_block returns
the could-not-download error, each with zero per-peer attempts — the same
results as when every peer fails. -/
theorem claim_C10_unresolvable_peers :
    ∀ (trustedPeers : List TrustedPeer) (shuffle : List Nat → List Nat)
      (hash : Nat) (battempt : Nat → Except BootstrapPeerError Unit)
      (fattempt : Nat → Except GrpcFetchBlockError Nat),
      (∀ l, (shuffle l).Perm l) →
      trustedPeers ≠ [] →
      (∀ tp ∈ trustedPeers, tp.resolved = none) →
      trusted_peers_shuffled trustedPeers shuffle = [] ∧
      bootstrap Protocol.grpc trustedPeers shuffle battempt = some (false, 0) ∧
      fetch_block Protocol.grpc trustedPeers shuffle hash fattempt =
        some (Except.error (FetchBlockError.couldNotDownloadBlock hash), 0) := by
  intro trustedPeers shuffle hash battempt fattempt hshuf hne hnores
  have hfm : trustedPeers.filterMap TrustedPeer.resolved = [] := by
    rw [List.filterMap_eq_nil_iff]
    exact hnores
  have hnil : trusted_peers_shuffled trustedPeers shuffle = [] := by
    unfold trusted_peers_shuffled
    rw [hfm]
    exact (hshuf []).eq_nil
  have hempty : trustedPeers.isEmpty = false := by
    cases trustedPeers with
    | nil => exact absurd rfl hne
    | cons x xs => rfl
  refine ⟨hnil, ?_, ?_⟩
  · unfold bootstrap
    rw [hnil, hempty]
    rfl
  · unfold fetch_block
    rw [hempty, hnil]
    rfl

/-- Witness for Claim C10 at a single unresolvable trusted peer. -/
theorem claim_C10_unresolvable_peers_witness :
    trusted_peers_shuffled [{ id := 1, resolved := none }] id = [] ∧
    bootstrap Protocol.grpc [{ id := 1, resolved := none }] id
        (fun _ => Except.ok ()) = some (false, 0) ∧
    fetch_block Protocol.grpc [{ id := 1, resolved := none }] id 9
        (fun _ => Except.ok 0) =
      some (Except.error (FetchBlockError.couldNotDownloadBlock 9), 0) :=
  claim_C10_unresolvable_peers [{ id := 1, resolved := none }] id 9
    (fun _ => Except.ok ()) (fun _ => Except.ok 0)
    (fun l => List.Perm.refl l) (by decide) (by decide)

end Jormungandr
